import Mathlib

/-!
Verification of the CLI isolation system against its specification.

The repository ships one source file, `src/frontend/src/App.js`, the React
client of the session-lifecycle orchestrator.  The client-side definitions
below are shallow embeddings of the handlers in that file: each handler is
modelled as a pure function from the component state (and the outcome the
network would return for the request it issues) to the new component state
together with the list of HTTP requests it issued.  The backend components
(SessionOrchestrator, SessionRegistry, PortAllocator, IdleReaper) are not
part of the repository's sources; they are modelled from the specification
text, and each such definition is marked `Modelled from the spec:` in its
doc comment.
-/

namespace CliIsolation

/-- Container info carried in a session descriptor
(`container_name`, `port`, `url` as read by App.js lines 221-229). -/
structure ContainerInfo where
  container_name : String
  port : Nat
  url : String
deriving Repr, DecidableEq

/-- Client-side session data (`cliData` in App.js): the session descriptor
held in component state; `checkCLIStatus` stores only `container_info`. -/
structure CLIData where
  container_info : Option ContainerInfo
  dashboard_url : Option String
deriving Repr, DecidableEq

/-- The authenticated user object returned by the auth gateway. -/
structure User where
  username : String
deriving Repr, DecidableEq

/-- The React component state of `App` (App.js lines 20-25), restricted to
the fields the session-lifecycle claims are about, plus the stored token. -/
structure ClientState where
  user : Option User
  cliData : Option CLIData
  error : String
  token : Option String
  loading : Bool
deriving Repr, DecidableEq

/-- The HTTP requests the client can issue. -/
inductive Request where
  | authVerify
  | cliRequest
  | cliStatus (username : String)
  | cliTerminate (username : String)
deriving Repr, DecidableEq

/-- Response body of `GET /cli/status/:username` as read by the client:
an existence flag and, when present, the container info. -/
structure StatusResp where
  exists_ : Bool
  container_info : Option ContainerInfo
deriving Repr, DecidableEq

/-- Handler `checkCLIStatus` (App.js lines 88-98).  Returns immediately when no
user is authenticated; otherwise issues `GET /cli/status/:username` and,
only when the response says the session exists, replaces `cliData` with an
object holding just the returned `container_info`.  A missing session
(`exists: false`) or a request failure leaves the state untouched. -/
def checkCLIStatus (net : String → Except Unit StatusResp) (s : ClientState) :
    ClientState × List Request :=
  match s.user with
  | none => (s, [])
  | some u =>
    match net u.username with
    | Except.ok r =>
        if r.exists_ then
          ({ s with cliData := some { container_info := r.container_info, dashboard_url := none } },
           [Request.cliStatus u.username])
        else (s, [Request.cliStatus u.username])
    | Except.error _ => (s, [Request.cliStatus u.username])

/-- Handler `terminateCLI` (App.js lines 100-108).  Returns immediately when no user
is authenticated; otherwise issues `DELETE /cli/terminate/:username`; on
success it clears `cliData`, on any failure it sets the one generic error
message and leaves `cliData` as it was. -/
def terminateCLI (net : String → Except Unit Unit) (s : ClientState) :
    ClientState × List Request :=
  match s.user with
  | none => (s, [])
  | some u =>
    match net u.username with
    | Except.ok _ => ({ s with cliData := none }, [Request.cliTerminate u.username])
    | Except.error _ =>
        ({ s with error := "Failed to terminate CLI session" },
         [Request.cliTerminate u.username])

/-- Handler `checkAuth` (App.js lines 35-46).  With no stored token it only clears
the loading flag and issues no request; with a token it calls
`GET /auth/verify`, setting the user on success and removing the token on
failure (no error message is surfaced either way). -/
def checkAuth (verify : Except Unit User) (s : ClientState) :
    ClientState × List Request :=
  match s.token with
  | none => ({ s with loading := false }, [])
  | some _ =>
    match verify with
    | Except.ok u => ({ s with user := some u, loading := false }, [Request.authVerify])
    | Except.error _ => ({ s with token := none, loading := false }, [Request.authVerify])

/-- The `cliData?.container_info` optional chain used by the render and the
polling effect. -/
def cliContainerInfo (s : ClientState) : Option ContainerInfo :=
  match s.cliData with
  | none => none
  | some d => d.container_info

/-- The polling period of the status effect, in milliseconds
(App.js line 122: `20000`). -/
def pollIntervalMs : Nat := 20000

/-- The polling effect (App.js lines 117-125): while a user is set and
`cliData?.container_info` is present an interval of `pollIntervalMs`
running `checkCLIStatus` is installed; otherwise (and on cleanup) no
interval is live. -/
def pollInterval (s : ClientState) : Option Nat :=
  if s.user.isSome && (cliContainerInfo s).isSome then some pollIntervalMs else none

/-- The three tips rendered inside the active-session block
(App.js lines 249-256). -/
def tipsList : List String :=
  ["Files in /workspace persist between sessions",
   "Session auto-terminates after 30 minutes of inactivity",
   "Resource limits: 128MB RAM, 0.5 CPU cores"]

/-- What the CLI card renders (App.js lines 217-264): with a user and a
`container_info` present the active-session block — including the tips
list — is shown; otherwise it is not. -/
def renderTips (s : ClientState) : Option (List String) :=
  if s.user.isSome && (cliContainerInfo s).isSome then some tipsList else none

/-- Whether the client currently renders the session as active
(the `cliData?.container_info` branch at App.js line 217). -/
def rendersActiveSession (s : ClientState) : Bool :=
  (cliContainerInfo s).isSome

/-- Modelled from the spec: the session lifecycle states of §3
(`Requested → Active → Terminating → Terminated`); the backend sources are
not in the repository. -/
inductive SessionState where
  | Requested
  | Active
  | Terminating
  | Terminated
deriving Repr, DecidableEq

/-- Modelled from the spec: the `SessionRecord` of §3; the backend sources
are not in the repository. -/
structure SessionRecord where
  identity : String
  containerRef : String
  port : Nat
  endpointURL : String
  dashboardURL : Option String
  createdAt : Nat
  lastActivityAt : Nat
  state : SessionState
deriving Repr, DecidableEq

/-- Modelled from the spec: the orchestrator error taxonomy of §7. -/
inductive OrchError where
  | ResourceExhausted
  | ProvisionError
  | NotFound
deriving Repr, DecidableEq

/-- Modelled from the spec: the shared state of the missing backend — the
`SessionRegistry` (list of records) together with the `PortAllocator` free
pool, kept as an ascending list so the head is the lowest free port. -/
structure Orch where
  registry : List SessionRecord
  freePorts : List Nat
deriving Repr, DecidableEq

/-- Modelled from the spec: the 30-minute inactivity threshold (§4.2),
in milliseconds. -/
def idleTimeoutMs : Nat := 30 * 60 * 1000

/-- Modelled from the spec: the fixed memory ceiling per session, 128 MB. -/
def memoryLimitMB : Nat := 128

/-- Modelled from the spec: the fixed compute ceiling per session,
0.5 cores, kept in millicores. -/
def cpuLimitMilliCores : Nat := 500

/-- Whether a record is the live record for `i`: the registry retains no
`Terminated` records (§3 invariant 4), so live means keyed by `i` and
non-terminal. -/
def isLive (i : String) (r : SessionRecord) : Bool :=
  decide (r.identity = i) && !decide (r.state = SessionState.Terminated)

/-- Look up the live record for an identity in the registry. -/
def findLive (reg : List SessionRecord) (i : String) : Option SessionRecord :=
  reg.find? (isLive i)

/-- Insert a port into an ascending free list, keeping it ascending. -/
def insertSorted (p : Nat) : List Nat → List Nat
  | [] => [p]
  | q :: rest => if p ≤ q then p :: q :: rest else q :: insertSorted p rest

/-- Modelled from the spec: `PortAllocator.Release` (§4.3) — returning a
port to the free set; releasing an already-free port is a no-op. -/
def releasePort (p : Nat) (pool : List Nat) : List Nat :=
  if p ∈ pool then pool else insertSorted p pool

/-- Derived endpoint URL for a session port. -/
def mkEndpointURL (port : Nat) : String :=
  "http://localhost:" ++ toString port ++ "/"

/-- Outcome of a `RequestSession` call: the returned record or error, the
resulting backend state, and whether the runtime adapter's create
operation was invoked on this call. -/
structure ReqResult where
  outcome : Except OrchError SessionRecord
  st : Orch
  provisioned : Bool
deriving Repr

/-- Modelled from the spec: `SessionOrchestrator.RequestSession` (§4.1).
Idempotent: a live record is returned unchanged with no provisioning and
no heartbeat side effect.  Otherwise the lowest free port is allocated
(`ResourceExhausted` when none remain) and the runtime adapter asked to
create the environment; on adapter failure the port is released and the
call fails with `ProvisionError`, leaving no partial record; on success an
`Active` record is inserted and returned. -/
def requestSession (create : String → Nat → Except Unit String)
    (now : Nat) (st : Orch) (i : String) : ReqResult :=
  match findLive st.registry i with
  | some r => ⟨Except.ok r, st, false⟩
  | none =>
    match st.freePorts with
    | [] => ⟨Except.error OrchError.ResourceExhausted, st, false⟩
    | p :: rest =>
      match create i p with
      | Except.error _ =>
          ⟨Except.error OrchError.ProvisionError,
           { st with freePorts := releasePort p rest }, true⟩
      | Except.ok ref =>
          let r : SessionRecord :=
            { identity := i, containerRef := ref, port := p,
              endpointURL := mkEndpointURL p, dashboardURL := none,
              createdAt := now, lastActivityAt := now,
              state := SessionState.Active }
          ⟨Except.ok r, { registry := r :: st.registry, freePorts := rest }, true⟩

/-- Backend response of `GetStatus`: existence flag plus the record. -/
structure StatusResult where
  exists_ : Bool
  record : Option SessionRecord
deriving Repr, DecidableEq

/-- Refresh the live record for `i` with a fresh `lastActivityAt`. -/
def heartbeat (now : Nat) (i : String) (reg : List SessionRecord) :
    List SessionRecord :=
  reg.map (fun r => if isLive i r then { r with lastActivityAt := now } else r)

/-- Modelled from the spec: `SessionOrchestrator.GetStatus` (§4.1).
Pure read plus heartbeat: with a live record, `lastActivityAt` is set to
now and `{exists: true, record}` returned; with none, `{exists: false}` is
returned with no side effect — a session is never implicitly created. -/
def getStatus (now : Nat) (st : Orch) (i : String) : StatusResult × Orch :=
  match findLive st.registry i with
  | none => (⟨false, none⟩, st)
  | some r =>
      (⟨true, some { r with lastActivityAt := now }⟩,
       { st with registry := heartbeat now i st.registry })

/-- Which caller invokes `TerminateSession`: an explicit client call or the
idle reaper. -/
inductive Caller where
  | client
  | reaper
deriving Repr, DecidableEq

/-- Remove the live record(s) keyed by an identity from the registry. -/
def removeIdentity (reg : List SessionRecord) (i : String) : List SessionRecord :=
  reg.filter (fun r => !(isLive i r))

/-- Modelled from the spec: `SessionOrchestrator.TerminateSession` (§4.1).
With no live record it is a no-op success for the reaper but `NotFound`
for an explicit client call.  With a record, the runtime destroy is
invoked best-effort (its failure does not block cleanup), the port is
released and the record removed. -/
def terminateSession (destroy : String → Except Unit Unit) (caller : Caller)
    (st : Orch) (i : String) : Except OrchError Unit × Orch :=
  match findLive st.registry i with
  | none =>
    match caller with
    | Caller.reaper => (Except.ok (), st)
    | Caller.client => (Except.error OrchError.NotFound, st)
  | some r =>
    let _ := destroy r.containerRef
    (Except.ok (),
     { registry := removeIdentity st.registry i,
       freePorts := releasePort r.port st.freePorts })

/-- Modelled from the spec: the reaper staleness test (§4.2) — an `Active`
record whose `now - lastActivityAt` exceeds the inactivity threshold. -/
def isStale (now : Nat) (r : SessionRecord) : Bool :=
  decide (r.state = SessionState.Active) && decide (idleTimeoutMs < now - r.lastActivityAt)

/-- The identities of the stale records a reaper cycle will act on. -/
def staleIdentities (now : Nat) (reg : List SessionRecord) : List String :=
  (reg.filter (isStale now)).map SessionRecord.identity

/-- One identity's termination step of the reaper: drive the same path as
`TerminateSession`, invoked as the reaper. -/
def reapStep (destroy : String → Except Unit Unit) (acc : Orch) (i : String) : Orch :=
  (terminateSession destroy Caller.reaper acc i).2

/-- Modelled from the spec: one `IdleReaper` cycle (§4.2) — scan for stale
`Active` records and drive the same termination path as
`TerminateSession`, invoked as the reaper. -/
def reaperCycle (destroy : String → Except Unit Unit) (now : Nat)
    (st : Orch) : Orch :=
  (staleIdentities now st.registry).foldl (reapStep destroy) st

/-- A logged-out client state used to evaluate the theorems below. -/
def sampleState : ClientState :=
  { user := none, cliData := none, error := "", token := none, loading := false }

/-- A client state with a stored token but no user yet. -/
def sampleTokState : ClientState :=
  { user := none, cliData := none, error := "", token := some "tok", loading := true }

/-- A client state displaying an active session for alice. -/
def sampleActiveState : ClientState :=
  { user := some ⟨"alice"⟩,
    cliData := some { container_info := some ⟨"cli_alice", 8001, "http://localhost:8001/"⟩,
                      dashboard_url := none },
    error := "", token := some "tok", loading := false }

/-- An empty backend state with two free ports. -/
def sampleOrch : Orch :=
  { registry := [], freePorts := [8001, 8002] }

/-- A live record for alice on port 8001. -/
def sampleRecord : SessionRecord :=
  { identity := "alice", containerRef := "cli_alice", port := 8001,
    endpointURL := "http://localhost:8001/", dashboardURL := none,
    createdAt := 0, lastActivityAt := 0, state := SessionState.Active }

/-- A backend state holding alice's live record. -/
def sampleOrchActive : Orch :=
  { registry := [sampleRecord], freePorts := [8002] }

/-- Updating `lastActivityAt` changes neither the key nor the state of a
record, hence not its liveness. -/
lemma isLive_setLast (i : String) (r : SessionRecord) (now : Nat) :
    isLive i { r with lastActivityAt := now } = isLive i r := rfl

/-- A heartbeat refreshes exactly the live record the lookup returns. -/
lemma findLive_heartbeat (now : Nat) (i : String) :
    ∀ (reg : List SessionRecord) (r : SessionRecord),
      findLive reg i = some r →
      findLive (heartbeat now i reg) i = some { r with lastActivityAt := now } := by
  intro reg
  induction reg with
  | nil => intro r h; simp [findLive] at h
  | cons a l ih =>
    intro r h
    rw [findLive] at h
    rw [heartbeat, List.map_cons, findLive]
    by_cases ha : isLive i a = true
    · rw [List.find?_cons_of_pos _ ha] at h
      injection h with h
      subst h
      rw [if_pos ha, List.find?_cons_of_pos]
      rw [isLive_setLast]
      exact ha
    · rw [List.find?_cons_of_neg _ ha] at h
      rw [if_neg ha, List.find?_cons_of_neg _ ha]
      simpa [findLive, heartbeat] using ih r h

/-- After removing an identity, no live record for it remains. -/
lemma findLive_removeIdentity (reg : List SessionRecord) (i : String) :
    findLive (removeIdentity reg i) i = none := by
  rw [findLive, List.find?_eq_none]
  intro r hr hcontra
  have h2 := (List.mem_filter.mp hr).2
  rw [hcontra] at h2
  simp at h2

/-- Terminating any identity never creates a live record for another. -/
lemma terminate_preserves_none (destroy : String → Except Unit Unit) (c : Caller)
    (st : Orch) (j i : String) (h : findLive st.registry i = none) :
    findLive ((terminateSession destroy c st j).2).registry i = none := by
  cases hf : findLive st.registry j with
  | none => cases c <;> simp [terminateSession, hf, h]
  | some r =>
    simp only [terminateSession, hf]
    rw [findLive, List.find?_eq_none]
    intro x hx
    rw [findLive, List.find?_eq_none] at h
    exact h x (List.mem_filter.mp hx).1

/-- A reaper-invoked termination leaves no live record for its identity. -/
lemma terminate_reaper_removes (destroy : String → Except Unit Unit)
    (st : Orch) (i : String) :
    findLive ((terminateSession destroy Caller.reaper st i).2).registry i = none := by
  cases hf : findLive st.registry i with
  | none => simp [terminateSession, hf]
  | some r => simp only [terminateSession, hf]; exact findLive_removeIdentity _ _

/-- Terminating one identity keeps every record keyed by a different one. -/
lemma terminate_keeps_other (destroy : String → Except Unit Unit) (c : Caller)
    (st : Orch) (j : String) (r : SessionRecord)
    (hr : r ∈ st.registry) (hne : r.identity ≠ j) :
    r ∈ ((terminateSession destroy c st j).2).registry := by
  cases hf : findLive st.registry j with
  | none => cases c <;> simpa [terminateSession, hf] using hr
  | some r0 =>
    simp only [terminateSession, hf]
    exact List.mem_filter.mpr ⟨hr, by simp [isLive, hne]⟩

/-- A fold of reaper terminations never resurrects a missing identity. -/
lemma foldTerm_preserves_none (destroy : String → Except Unit Unit) (i : String) :
    ∀ (L : List String) (st : Orch), findLive st.registry i = none →
      findLive ((L.foldl (reapStep destroy) st).registry) i = none := by
  intro L
  induction L with
  | nil => intro st h; simpa using h
  | cons j t ih =>
    intro st h
    rw [List.foldl_cons]
    exact ih _ (terminate_preserves_none destroy Caller.reaper st j i h)

/-- Folding reaper terminations over a list removes every listed identity. -/
lemma foldTerm_removes (destroy : String → Except Unit Unit) (i : String) :
    ∀ (L : List String) (st : Orch), i ∈ L →
      findLive ((L.foldl (reapStep destroy) st).registry) i = none := by
  intro L
  induction L with
  | nil => intro st h; cases h
  | cons j t ih =>
    intro st h
    rw [List.foldl_cons]
    rcases List.mem_cons.mp h with h1 | h2
    · subst h1
      exact foldTerm_preserves_none destroy i t _
        (terminate_reaper_removes destroy st i)
    · exact ih _ h2

/-- Folding reaper terminations keeps a record none of whose identities are
listed. -/
lemma foldTerm_keeps (destroy : String → Except Unit Unit) (r : SessionRecord) :
    ∀ (L : List String) (st : Orch), r ∈ st.registry →
      (∀ j ∈ L, r.identity ≠ j) →
      r ∈ ((L.foldl (reapStep destroy) st).registry) := by
  intro L
  induction L with
  | nil => intro st hr _; simpa using hr
  | cons j t ih =>
    intro st hr hL
    rw [List.foldl_cons]
    exact ih _
      (terminate_keeps_other destroy Caller.reaper st j r hr
        (hL j (List.mem_cons_self j t)))
      (fun j2 hj2 => hL j2 (List.mem_cons_of_mem j hj2))

/-- Inserting a value below every element of a sorted list conses it. -/
lemma insertSorted_eq_cons (p : Nat) (l : List Nat) (h : ∀ q ∈ l, p < q) :
    insertSorted p l = p :: l := by
  cases l with
  | nil => rfl
  | cons q t =>
    rw [insertSorted, if_pos (le_of_lt (h q (List.mem_cons_self q t)))]

/-- Releasing a port strictly below a sorted free list restores the cons. -/
lemma releasePort_head (p : Nat) (l : List Nat) (h : ∀ q ∈ l, p < q) :
    releasePort p l = p :: l := by
  rw [releasePort, if_neg, insertSorted_eq_cons p l h]
  intro hmem
  exact lt_irrefl p (h p hmem)

/-- A live record for the identity at the head of the registry is what the
lookup returns. -/
lemma findLive_cons_self (i : String) (r : SessionRecord)
    (reg : List SessionRecord) (hid : r.identity = i)
    (hst : r.state ≠ SessionState.Terminated) :
    findLive (r :: reg) i = some r := by
  rw [findLive]
  exact List.find?_cons_of_pos _ (by simp [isLive, hid, hst])

/-- With a live record present, `RequestSession` returns it unchanged. -/
lemma requestSession_of_live (create : String → Nat → Except Unit String)
    (now : Nat) (st : Orch) (i : String) (r : SessionRecord)
    (h : findLive st.registry i = some r) :
    requestSession create now st i = ⟨Except.ok r, st, false⟩ := by
  simp [requestSession, h]

/-- C1: the polling effect runs `checkCLIStatus` every 20 seconds exactly
while a user and a displayed session are present (and is torn down when
either goes away); each tick issues the status request for the user's
name, each such `GetStatus` refreshes the live record's `lastActivityAt`,
and the 20-second cadence is under the 30-minute idle threshold. -/
theorem c1_status_polling :
    (∀ s : ClientState, s.user.isSome = true →
        (cliContainerInfo s).isSome = true →
        pollInterval s = some pollIntervalMs) ∧
    (∀ s : ClientState, s.user = none ∨ cliContainerInfo s = none →
        pollInterval s = none) ∧
    (∀ (net : String → Except Unit StatusResp) (s : ClientState) (u : User),
        s.user = some u →
        (checkCLIStatus net s).2 = [Request.cliStatus u.username]) ∧
    (∀ (now : Nat) (st : Orch) (i : String) (r : SessionRecord),
        findLive st.registry i = some r →
        (getStatus now st i).1 =
          ⟨true, some { r with lastActivityAt := now }⟩ ∧
        findLive ((getStatus now st i).2).registry i =
          some { r with lastActivityAt := now }) ∧
    pollIntervalMs < idleTimeoutMs := by
  refine ⟨?_, ?_, ?_, ?_, by decide⟩
  · intro s hu hc
    rw [pollInterval, hu, hc]
    rfl
  · intro s h
    rcases h with h | h <;> simp [pollInterval, h]
  · intro net s u hu
    cases hnet : net u.username with
    | error e => simp [checkCLIStatus, hu, hnet]
    | ok r =>
      by_cases hex : r.exists_ = true <;> simp [checkCLIStatus, hu, hnet, hex]
  · intro now st i r h
    refine ⟨by simp [getStatus, h], ?_⟩
    simp only [getStatus, h]
    exact findLive_heartbeat now i st.registry r h

/-- Witness for C1 at concrete client and backend states. -/
theorem c1_witness :
    pollInterval sampleActiveState = some pollIntervalMs ∧
    pollInterval sampleState = none ∧
    (checkCLIStatus (fun _ => Except.error ()) sampleActiveState).2 =
      [Request.cliStatus "alice"] ∧
    findLive ((getStatus 99 sampleOrchActive "alice").2).registry "alice" =
      some { sampleRecord with lastActivityAt := 99 } :=
  ⟨c1_status_polling.1 sampleActiveState rfl rfl,
   c1_status_polling.2.1 sampleState (Or.inl rfl),
   c1_status_polling.2.2.1 (fun _ => Except.error ()) sampleActiveState
     ⟨"alice"⟩ rfl,
   (c1_status_polling.2.2.2.1 99 sampleOrchActive "alice" sampleRecord
     rfl).2⟩

/-- C3: `GetStatus` on an identity with no live record answers
`{exists: false}` and leaves the backend state untouched — it never
implicitly creates a session — and the client's status path only ever
issues status requests, never the session-creation endpoint. -/
theorem c3_status_pure_read (now : Nat) (st : Orch) (i : String)
    (hnone : findLive st.registry i = none)
    (net : String → Except Unit StatusResp) (s : ClientState) :
    getStatus now st i = (⟨false, none⟩, st) ∧
    (∀ req ∈ (checkCLIStatus net s).2, ∃ un, req = Request.cliStatus un) := by
  refine ⟨by simp [getStatus, hnone], ?_⟩
  intro req hreq
  cases hu : s.user with
  | none => simp [checkCLIStatus, hu] at hreq
  | some u =>
    cases hnet : net u.username with
    | error e =>
      simp [checkCLIStatus, hu, hnet] at hreq
      exact ⟨u.username, hreq⟩
    | ok r =>
      by_cases hex : r.exists_ = true
      · simp [checkCLIStatus, hu, hnet, hex] at hreq
        exact ⟨u.username, hreq⟩
      · simp [checkCLIStatus, hu, hnet, hex] at hreq
        exact ⟨u.username, hreq⟩

/-- Witness for C3: a status read on an absent identity and the requests of
one concrete poll. -/
theorem c3_witness :
    getStatus 5 sampleOrch "bob" = (⟨false, none⟩, sampleOrch) ∧
    (∃ un, Request.cliStatus "alice" = Request.cliStatus un) :=
  ⟨(c3_status_pure_read 5 sampleOrch "bob" rfl
      (fun _ => Except.error ()) sampleActiveState).1,
   (c3_status_pure_read 5 sampleOrch "bob" rfl
      (fun _ => Except.error ()) sampleActiveState).2
     (Request.cliStatus "alice") (by decide)⟩

/-- C4: terminating an identity with no live record is a no-op success for
the reaper but `NotFound` for an explicit client call; on any failure the
client sets the one generic message and leaves `cliData` unchanged. -/
theorem c4_terminate_missing (destroy : String → Except Unit Unit)
    (st : Orch) (i : String) (hnone : findLive st.registry i = none)
    (net : String → Except Unit Unit) (s : ClientState) (u : User)
    (hu : s.user = some u) (hfail : net u.username = Except.error ()) :
    terminateSession destroy Caller.reaper st i = (Except.ok (), st) ∧
    terminateSession destroy Caller.client st i =
      (Except.error OrchError.NotFound, st) ∧
    (terminateCLI net s).1 =
      { s with error := "Failed to terminate CLI session" } ∧
    (terminateCLI net s).1.cliData = s.cliData := by
  refine ⟨by simp [terminateSession, hnone],
          by simp [terminateSession, hnone], ?_, ?_⟩ <;>
    simp [terminateCLI, hu, hfail]

/-- Witness for C4: both callers on an absent identity, and one failed
client termination. -/
theorem c4_witness :
    terminateSession (fun _ => Except.ok ()) Caller.reaper sampleOrch "bob" =
      (Except.ok (), sampleOrch) ∧
    terminateSession (fun _ => Except.ok ()) Caller.client sampleOrch "bob" =
      (Except.error OrchError.NotFound, sampleOrch) ∧
    (terminateCLI (fun _ => Except.error ()) sampleActiveState).1.cliData =
      sampleActiveState.cliData :=
  ⟨(c4_terminate_missing (fun _ => Except.ok ()) sampleOrch "bob" rfl
      (fun _ => Except.error ()) sampleActiveState ⟨"alice"⟩ rfl rfl).1,
   (c4_terminate_missing (fun _ => Except.ok ()) sampleOrch "bob" rfl
      (fun _ => Except.error ()) sampleActiveState ⟨"alice"⟩ rfl rfl).2.1,
   (c4_terminate_missing (fun _ => Except.ok ()) sampleOrch "bob" rfl
      (fun _ => Except.error ()) sampleActiveState ⟨"alice"⟩ rfl rfl).2.2.2⟩

/-- C5: `RequestSession` is idempotent — after a successful call, a second
call with no intervening terminate returns the same record (so the same
port and container reference), changes no state (so no heartbeat side
effect) and performs no new provisioning. -/
theorem c5_request_idempotent (create : String → Nat → Except Unit String)
    (now now2 : Nat) (st : Orch) (i : String) (r : SessionRecord)
    (h : (requestSession create now st i).outcome = Except.ok r) :
    requestSession create now2 (requestSession create now st i).st i =
      ⟨Except.ok r, (requestSession create now st i).st, false⟩ := by
  cases hf : findLive st.registry i with
  | some r0 =>
    have h0 : requestSession create now st i = ⟨Except.ok r0, st, false⟩ :=
      requestSession_of_live create now st i r0 hf
    rw [h0] at h ⊢
    simp at h
    subst h
    exact requestSession_of_live create now2 st i r0 hf
  | none =>
    cases hp : st.freePorts with
    | nil =>
      have h0 : requestSession create now st i =
          ⟨Except.error OrchError.ResourceExhausted, st, false⟩ := by
        simp [requestSession, hf, hp]
      rw [h0] at h
      simp at h
    | cons p rest =>
      cases hc : create i p with
      | error e =>
        have h0 : requestSession create now st i =
            ⟨Except.error OrchError.ProvisionError,
             { st with freePorts := releasePort p rest }, true⟩ := by
          simp [requestSession, hf, hp, hc]
        rw [h0] at h
        simp at h
      | ok ref =>
        have h0 : requestSession create now st i =
            ⟨Except.ok ⟨i, ref, p, mkEndpointURL p, none, now, now,
               SessionState.Active⟩,
             { registry := (⟨i, ref, p, mkEndpointURL p, none, now, now,
                 SessionState.Active⟩ : SessionRecord) :: st.registry,
               freePorts := rest }, true⟩ := by
          simp [requestSession, hf, hp, hc]
        rw [h0] at h ⊢
        simp at h
        subst h
        exact requestSession_of_live create now2 _ i _
          (findLive_cons_self i _ st.registry rfl
            (fun hx => SessionState.noConfusion hx))

/-- Witness for C5: two sequential requests for alice on the empty backend
state agree on the record and leave the state alone. -/
theorem c5_witness :
    (requestSession (fun i _ => Except.ok ("cli_" ++ i)) 0 sampleOrch
        "alice").outcome = Except.ok sampleRecord ∧
    requestSession (fun i _ => Except.ok ("cli_" ++ i)) 7
        (requestSession (fun i _ => Except.ok ("cli_" ++ i)) 0 sampleOrch
          "alice").st "alice" =
      ⟨Except.ok sampleRecord,
       (requestSession (fun i _ => Except.ok ("cli_" ++ i)) 0 sampleOrch
         "alice").st, false⟩ :=
  ⟨rfl,
   c5_request_idempotent (fun i _ => Except.ok ("cli_" ++ i)) 0 7 sampleOrch
     "alice" sampleRecord rfl⟩

/-- C6: when the runtime adapter's create fails, `RequestSession` releases
the allocated port and fails with `ProvisionError`, leaving the registry
and the port pool exactly as they were (the `provisioned` flag records
that the adapter was invoked). -/
theorem c6_provision_failure (create : String → Nat → Except Unit String)
    (now : Nat) (st : Orch) (i : String)
    (hnone : findLive st.registry i = none)
    (hsorted : st.freePorts.Sorted (· < ·))
    (hfail : ∀ p, create i p = Except.error ())
    (p : Nat) (rest : List Nat) (hpool : st.freePorts = p :: rest) :
    requestSession create now st i =
      ⟨Except.error OrchError.ProvisionError, st, true⟩ := by
  have hrest : ∀ q ∈ rest, p < q := by
    rw [hpool] at hsorted
    exact (List.sorted_cons.mp hsorted).1
  have h0 : requestSession create now st i =
      ⟨Except.error OrchError.ProvisionError,
       { st with freePorts := releasePort p rest }, true⟩ := by
    simp [requestSession, hnone, hpool, hfail p]
  rw [h0, releasePort_head p rest hrest, ← hpool]

/-- Witness for C6: a failing adapter on the empty backend state leaves it
untouched. -/
theorem c6_witness :
    requestSession (fun _ _ => Except.error ()) 0 sampleOrch "alice" =
      ⟨Except.error OrchError.ProvisionError, sampleOrch, true⟩ :=
  c6_provision_failure (fun _ _ => Except.error ()) 0 sampleOrch "alice" rfl
    (by decide) (fun _ => rfl) 8001 [8002] rfl

/-- C7: a reaper cycle terminates every `Active` session whose last
heartbeat is more than the 30-minute threshold old and keeps every one
whose last heartbeat is younger than the threshold (for a registry with
pairwise-distinct identities). -/
theorem c7_reaper_timing (destroy : String → Except Unit Unit) (now : Nat)
    (st : Orch) (r : SessionRecord)
    (hnodup : (st.registry.map SessionRecord.identity).Nodup)
    (hr : r ∈ st.registry) (hact : r.state = SessionState.Active) :
    (idleTimeoutMs < now - r.lastActivityAt →
       findLive (reaperCycle destroy now st).registry r.identity = none) ∧
    (now - r.lastActivityAt < idleTimeoutMs →
       r ∈ (reaperCycle destroy now st).registry) := by
  constructor
  · intro hold
    have hstale : isStale now r = true := by simp [isStale, hact, hold]
    have hmem : r.identity ∈ staleIdentities now st.registry := by
      unfold staleIdentities
      exact List.mem_map_of_mem _ (List.mem_filter.mpr ⟨hr, hstale⟩)
    exact foldTerm_removes destroy r.identity
      (staleIdentities now st.registry) st hmem
  · intro hfresh
    have hnotstale : ¬ isStale now r = true := by
      simp [isStale, hact]
      omega
    refine foldTerm_keeps destroy r (staleIdentities now st.registry) st hr ?_
    intro j hj heq
    unfold staleIdentities at hj
    rcases List.mem_map.mp hj with ⟨r2, hr2f, hr2id⟩
    rcases List.mem_filter.mp hr2f with ⟨hr2mem, hr2stale⟩
    have hr2r : r2 = r :=
      List.inj_on_of_nodup_map hnodup hr2mem hr (by rw [hr2id, heq])
    rw [hr2r] at hr2stale
    exact hnotstale hr2stale

/-- Witness for C7: alice's session, 31 minutes idle, is gone after one
reaper cycle; at 29 minutes idle it survives the cycle. -/
theorem c7_witness :
    findLive (reaperCycle (fun _ => Except.ok ()) 1860000
        sampleOrchActive).registry "alice" = none ∧
    sampleRecord ∈ (reaperCycle (fun _ => Except.ok ()) 1740000
        sampleOrchActive).registry :=
  ⟨(c7_reaper_timing (fun _ => Except.ok ()) 1860000 sampleOrchActive
      sampleRecord (by decide) (by decide) rfl).1 (by decide),
   (c7_reaper_timing (fun _ => Except.ok ()) 1740000 sampleOrchActive
      sampleRecord (by decide) (by decide) rfl).2 (by decide)⟩

/-- C2: whenever the active-session block is rendered, the tips block shows
exactly the three published operating parameters — workspace persistence,
the 30-minute inactivity auto-termination, and the 128 MB / 0.5-core
resource ceiling — in agreement with the modelled backend constants. -/
theorem c2_tips_published_parameters (s : ClientState)
    (hu : s.user.isSome = true) (hc : (cliContainerInfo s).isSome = true) :
    renderTips s = some tipsList ∧
    tipsList = ["Files in /workspace persist between sessions",
                "Session auto-terminates after 30 minutes of inactivity",
                "Resource limits: 128MB RAM, 0.5 CPU cores"] ∧
    tipsList.length = 3 ∧
    idleTimeoutMs = 30 * 60 * 1000 ∧
    memoryLimitMB = 128 ∧ cpuLimitMilliCores = 500 := by
  refine ⟨?_, rfl, rfl, rfl, rfl, rfl⟩
  rw [renderTips, hu, hc]
  rfl

/-- Witness for C2 at a concrete active client state. -/
theorem c2_witness :
    renderTips sampleActiveState = some tipsList ∧ tipsList.length = 3 :=
  ⟨(c2_tips_published_parameters sampleActiveState rfl rfl).1,
   (c2_tips_published_parameters sampleActiveState rfl rfl).2.2.1⟩

/-- C8: a status poll that reports no session (or fails) leaves the whole
client state — in particular `cliData` — unchanged, so a session removed
server-side keeps being rendered as active. -/
theorem c8_stale_render_kept (net : String → Except Unit StatusResp)
    (s : ClientState) (u : User) (hu : s.user = some u)
    (hresp : net u.username = Except.error () ∨
      ∃ ci, net u.username = Except.ok ⟨false, ci⟩) :
    (checkCLIStatus net s).1 = s ∧
    rendersActiveSession (checkCLIStatus net s).1 = rendersActiveSession s := by
  have hstate : (checkCLIStatus net s).1 = s := by
    rcases hresp with hfail | ⟨ci, hok⟩
    · simp [checkCLIStatus, hu, hfail]
    · simp [checkCLIStatus, hu, hok]
  exact ⟨hstate, by rw [hstate]⟩

/-- Witness for C8: a failed poll on the active sample state changes
nothing and the session keeps rendering. -/
theorem c8_witness :
    (checkCLIStatus (fun _ => Except.error ()) sampleActiveState).1 =
      sampleActiveState ∧
    rendersActiveSession
        (checkCLIStatus (fun _ => Except.error ()) sampleActiveState).1 =
      rendersActiveSession sampleActiveState :=
  c8_stale_render_kept (fun _ => Except.error ()) sampleActiveState
    ⟨"alice"⟩ rfl (Or.inl rfl)

/-- C9: with no stored token, `checkAuth` sends nothing and only clears the
loading flag; with a token and a failing verify it removes the token,
leaves the user field (null stays null) and surfaces no error message. -/
theorem c9_checkAuth_failure (vf : Except Unit User) (s : ClientState) :
    (s.token = none → checkAuth vf s = ({ s with loading := false }, [])) ∧
    (∀ t, s.token = some t → vf = Except.error () →
      (checkAuth vf s).1 = { s with token := none, loading := false } ∧
      (checkAuth vf s).1.user = s.user ∧
      (checkAuth vf s).1.error = s.error) := by
  constructor
  · intro h
    simp [checkAuth, h]
  · intro t ht hv
    subst hv
    refine ⟨by simp [checkAuth, ht], ?_, ?_⟩ <;> simp [checkAuth, ht]

/-- Witness for C9 at concrete client states, with a failing verify. -/
theorem c9_witness :
    checkAuth (Except.error ()) sampleState =
      ({ sampleState with loading := false }, []) ∧
    (checkAuth (Except.error ()) sampleTokState).1 =
      { sampleTokState with token := none, loading := false } :=
  ⟨(c9_checkAuth_failure (Except.error ()) sampleState).1 rfl,
   ((c9_checkAuth_failure (Except.error ()) sampleTokState).2 "tok" rfl rfl).1⟩

/-- C10: when no user is authenticated, `checkCLIStatus` and `terminateCLI`
return at once — no request is issued and no state is modified. -/
theorem c10_no_user_no_request (netS : String → Except Unit StatusResp)
    (netT : String → Except Unit Unit) (s : ClientState) (h : s.user = none) :
    checkCLIStatus netS s = (s, []) ∧ terminateCLI netT s = (s, []) := by
  constructor
  · simp [checkCLIStatus, h]
  · simp [terminateCLI, h]

/-- Witness for C10 at the logged-out sample state. -/
theorem c10_witness :
    checkCLIStatus (fun _ => Except.error ()) sampleState = (sampleState, []) ∧
    terminateCLI (fun _ => Except.error ()) sampleState = (sampleState, []) :=
  c10_no_user_no_request (fun _ => Except.error ())
    (fun _ => Except.error ()) sampleState rfl

end CliIsolation
